import Mathlib

/-!
Verification of the TimeHammer NTP core (neutrinoguy/timehammer).

This file is a shallow embedding, in Lean, of the parts of the Go source that
the verified properties are about:

* the wire codec of package ntpcore (NTPPacket, ParsePacket, Bytes, the
  NTP timestamp conversions and the packet setters, including SetKissOfDeathCode);
* the upstream tracker's GetStratum (package ntp);
* the request engine's response construction in processRequest (package server),
  as the pure function buildResponse over the values it reads from the upstream
  tracker;
* the attack engine of package attacks: the eight apply functions and
  ProcessPacket, with the engine's mutable state passed explicitly and the
  effectful inputs (RNG draws, time.Now, time.Parse results, the float64 drift
  computation) supplied through an explicit environment record AttackEnv.

Go machine integers are modelled as Nat/Int with explicit reductions modulo
2^8 / 2^32 where the Go code converts or overflows.  Byte strings are lists of
Nat below 256.  Go time.Time is modelled as unix seconds (Int) plus
nanoseconds (Nat).
-/

/-- Go uint8(x) applied to a Go int: two's-complement truncation to 8 bits. -/
def uint8ofInt (x : Int) : Nat := (x % 256).toNat

/-- Go uint32(x) applied to a Go int64: two's-complement truncation to 32 bits. -/
def uint32ofInt (x : Int) : Nat := (x % 4294967296).toNat

/-- Go int8(b) of a byte value b (two's complement). -/
def int8ofByte (b : Nat) : Int := if b < 128 then (b : Int) else (b : Int) - 256

/-- Go byte(i) of an int8 value i (two's complement). -/
def byteOfInt8 (i : Int) : Nat := (i % 256).toNat

/-- Semantics of Go binary.BigEndian.Uint32 on four bytes. -/
def be32 (b0 b1 b2 b3 : Nat) : Nat := ((b0 * 256 + b1) * 256 + b2) * 256 + b3

/-- Semantics of Go binary.BigEndian.PutUint32 on a uint32 value. -/
def put32 (v : Nat) : List Nat := [v / 16777216 % 256, v / 65536 % 256, v / 256 % 256, v % 256]

/-- ntpcore.NTPPacket: the 48-byte NTP packet held as 14 logical fields
(timestamps split into seconds/fraction words, as in the Go struct).
The uint8 fields hold 0..255, the int8 fields -128..127, the uint32 fields
0..2^32-1; NTPPacket.Wf states those Go-type range invariants. -/
structure NTPPacket where
  LeapIndicator : Nat
  Version : Nat
  Mode : Nat
  Stratum : Nat
  Poll : Int
  Precision : Int
  RootDelay : Nat
  RootDisp : Nat
  ReferenceID : Nat
  RefTimeSec : Nat
  RefTimeFrac : Nat
  OrigTimeSec : Nat
  OrigTimeFrac : Nat
  RecvTimeSec : Nat
  RecvTimeFrac : Nat
  XmitTimeSec : Nat
  XmitTimeFrac : Nat
deriving Repr, DecidableEq

/-- Range invariants of the Go field types of ntpcore.NTPPacket. -/
def NTPPacket.Wf (p : NTPPacket) : Prop :=
  p.LeapIndicator < 256 ∧ p.Version < 256 ∧ p.Mode < 256 ∧ p.Stratum < 256 ∧
  -128 ≤ p.Poll ∧ p.Poll < 128 ∧ -128 ≤ p.Precision ∧ p.Precision < 128 ∧
  p.RootDelay < 4294967296 ∧ p.RootDisp < 4294967296 ∧ p.ReferenceID < 4294967296 ∧
  p.RefTimeSec < 4294967296 ∧ p.RefTimeFrac < 4294967296 ∧
  p.OrigTimeSec < 4294967296 ∧ p.OrigTimeFrac < 4294967296 ∧
  p.RecvTimeSec < 4294967296 ∧ p.RecvTimeFrac < 4294967296 ∧
  p.XmitTimeSec < 4294967296 ∧ p.XmitTimeFrac < 4294967296

/-- ntpcore.ParsePacket: packets shorter than 48 bytes are rejected
("packet too short", modelled as none); longer input is accepted and the
extra bytes are ignored.  The first byte is split as LI(2) | VN(3) | Mode(3). -/
def ParsePacket (data : List Nat) : Option NTPPacket :=
  if data.length < 48 then none
  else some
    { LeapIndicator := (data.getD 0 0 >>> 6) &&& 3
      Version := (data.getD 0 0 >>> 3) &&& 7
      Mode := data.getD 0 0 &&& 7
      Stratum := data.getD 1 0
      Poll := int8ofByte (data.getD 2 0)
      Precision := int8ofByte (data.getD 3 0)
      RootDelay := be32 (data.getD 4 0) (data.getD 5 0) (data.getD 6 0) (data.getD 7 0)
      RootDisp := be32 (data.getD 8 0) (data.getD 9 0) (data.getD 10 0) (data.getD 11 0)
      ReferenceID := be32 (data.getD 12 0) (data.getD 13 0) (data.getD 14 0) (data.getD 15 0)
      RefTimeSec := be32 (data.getD 16 0) (data.getD 17 0) (data.getD 18 0) (data.getD 19 0)
      RefTimeFrac := be32 (data.getD 20 0) (data.getD 21 0) (data.getD 22 0) (data.getD 23 0)
      OrigTimeSec := be32 (data.getD 24 0) (data.getD 25 0) (data.getD 26 0) (data.getD 27 0)
      OrigTimeFrac := be32 (data.getD 28 0) (data.getD 29 0) (data.getD 30 0) (data.getD 31 0)
      RecvTimeSec := be32 (data.getD 32 0) (data.getD 33 0) (data.getD 34 0) (data.getD 35 0)
      RecvTimeFrac := be32 (data.getD 36 0) (data.getD 37 0) (data.getD 38 0) (data.getD 39 0)
      XmitTimeSec := be32 (data.getD 40 0) (data.getD 41 0) (data.getD 42 0) (data.getD 43 0)
      XmitTimeFrac := be32 (data.getD 44 0) (data.getD 45 0) (data.getD 46 0) (data.getD 47 0) }

/-- ntpcore.(*NTPPacket).Bytes: serialize to exactly 48 bytes, big-endian.
The first-byte shifts happen on Go uint8 values, hence the mod-256 reductions. -/
def NTPPacket.Bytes (p : NTPPacket) : List Nat :=
  (((p.LeapIndicator <<< 6) % 256) ||| ((p.Version <<< 3) % 256) ||| p.Mode) ::
  p.Stratum :: byteOfInt8 p.Poll :: byteOfInt8 p.Precision ::
  (put32 p.RootDelay ++ put32 p.RootDisp ++ put32 p.ReferenceID ++
   put32 p.RefTimeSec ++ put32 p.RefTimeFrac ++ put32 p.OrigTimeSec ++ put32 p.OrigTimeFrac ++
   put32 p.RecvTimeSec ++ put32 p.RecvTimeFrac ++ put32 p.XmitTimeSec ++ put32 p.XmitTimeFrac)

/-- Go time.Time, modelled as unix seconds plus a nanosecond part in [0, 1e9). -/
structure GoTime where
  sec : Int
  nsec : Nat
deriving Repr, DecidableEq

structure NTPTimestamp where
  Seconds : Nat
  Fraction : Nat
deriving Repr, DecidableEq

def GoTime.addSecs (t : GoTime) (s : Int) : GoTime := { t with sec := t.sec + s }

def GoTime.addNs (t : GoTime) (d : Int) : GoTime :=
  let total : Int := (t.nsec : Int) + d
  { sec := t.sec + total / 1000000000, nsec := (total % 1000000000).toNat }

/-- Fraction encoding of ntpcore.TimeToNTPTimestamp.  The Go source computes
uint32((float64(nanos)/1e9)*float64(1 shl 32)); this definition is the real-number
value of that expression truncated toward zero.  Every use in this file is at
n = 0, where the float64 computation is exact and agrees with this model. -/
def ntpFracOfNanos (n : Nat) : Nat := n * 4294967296 / 1000000000

/-- Nanosecond decoding of ntpcore.NTPTimestampToTime, int64((float64(frac)/2^32)*1e9);
modelled like ntpFracOfNanos (exact at f = 0, the only value used here). -/
def nanosOfNtpFrac (f : Nat) : Nat := f * 1000000000 / 4294967296

/-- ntpcore.NTPEpochOffset: seconds between the NTP (1900) and Unix (1970) epochs. -/
def NTPEpochOffset : Nat := 2208988800

/-- ntpcore.TimeToNTPTimestamp: secs = t.Unix() + NTPEpochOffset, truncated by
the Go uint32 conversion. -/
def TimeToNTPTimestamp (t : GoTime) : NTPTimestamp :=
  { Seconds := uint32ofInt (t.sec + (NTPEpochOffset : Int)), Fraction := ntpFracOfNanos t.nsec }

/-- ntpcore.NTPTimestampToTime: time.Unix(int64(ts.Seconds) - NTPEpochOffset, nanos). -/
def NTPTimestampToTime (ts : NTPTimestamp) : GoTime :=
  { sec := (ts.Seconds : Int) - (NTPEpochOffset : Int), nsec := nanosOfNtpFrac ts.Fraction }

def NTPPacket.SetOriginTime (p : NTPPacket) (sec frac : Nat) : NTPPacket :=
  { p with OrigTimeSec := sec, OrigTimeFrac := frac }

def NTPPacket.SetReceiveTime (p : NTPPacket) (t : GoTime) : NTPPacket :=
  let ts := TimeToNTPTimestamp t
  { p with RecvTimeSec := ts.Seconds, RecvTimeFrac := ts.Fraction }

def NTPPacket.SetReferenceTime (p : NTPPacket) (t : GoTime) : NTPPacket :=
  let ts := TimeToNTPTimestamp t
  { p with RefTimeSec := ts.Seconds, RefTimeFrac := ts.Fraction }

def NTPPacket.SetTransmitTime (p : NTPPacket) (t : GoTime) : NTPPacket :=
  let ts := TimeToNTPTimestamp t
  { p with XmitTimeSec := ts.Seconds, XmitTimeFrac := ts.Fraction }

def NTPPacket.GetTransmitTime (p : NTPPacket) : GoTime :=
  NTPTimestampToTime { Seconds := p.XmitTimeSec, Fraction := p.XmitTimeFrac }

/-- ntpcore.(*NTPPacket).SetKissOfDeathCode: rejects codes whose byte length is
not 4 before touching the packet; on success forces Stratum to 0 and packs the
code big-endian into ReferenceID.  The error return is modelled as the second
component. -/
def NTPPacket.SetKissOfDeathCode (p : NTPPacket) (code : List Nat) : NTPPacket × Option String :=
  if code.length ≠ 4 then (p, some "kiss code must be exactly 4 characters")
  else ({ p with
            Stratum := 0
            ReferenceID := be32 (code.getD 0 0) (code.getD 1 0) (code.getD 2 0) (code.getD 3 0) },
        none)

/-- ntpcore.NewPacket: default field values of a fresh response packet
(LI = 0, VN = 4, Mode = server, Stratum = 2, Poll = 6, Precision = -20;
all timestamps are the Go zero values). -/
def NewPacket : NTPPacket :=
  { LeapIndicator := 0, Version := 4, Mode := 4, Stratum := 2, Poll := 6, Precision := -20,
    RootDelay := 0, RootDisp := 0, ReferenceID := 0,
    RefTimeSec := 0, RefTimeFrac := 0, OrigTimeSec := 0, OrigTimeFrac := 0,
    RecvTimeSec := 0, RecvTimeFrac := 0, XmitTimeSec := 0, XmitTimeFrac := 0 }

/-- ntpcore.(*NTPPacket).IsValidClientRequest: Mode = client(3) and VN in 3..4. -/
def NTPPacket.IsValidClientRequest (p : NTPPacket) : Bool :=
  p.Mode == 3 && (p.Version == 3 || p.Version == 4)

/-- ntp.SyncStatus (durations as nanoseconds, LastSync omitted - unused here). -/
structure SyncStatus where
  Synchronized : Bool
  ActiveServer : String
  Stratum : Int
  Offset : Int
  RTT : Int
  LastError : String
deriving Repr, DecidableEq

/-- ntp.(*UpstreamClient).GetStratum: 16 when unsynchronized, otherwise
upstream stratum + 1 capped at 15, then converted to uint8. -/
def GetStratum (s : SyncStatus) : Nat :=
  if !s.Synchronized then 16
  else uint8ofInt (if s.Stratum + 1 > 15 then 15 else s.Stratum + 1)

/-- The response construction of server.(*Server).processRequest, as a pure
function of the parsed request and of the values processRequest reads from its
collaborators: the upstream SyncStatus snapshot, GetReferenceID's result, the
receive / current / transmit instants, and the two float64-computed
CalculateRootDelay / CalculateRootDispersion words, passed in as parameters. -/
def buildResponse (packet : NTPPacket) (st : SyncStatus) (referenceID : Nat)
    (receiveTime currentTime transmitNow : GoTime) (rootDelay rootDisp : Nat) : NTPPacket :=
  let r0 := { NewPacket with
    Version := packet.Version
    Mode := 4
    Stratum := GetStratum st
    Poll := packet.Poll
    Precision := -20
    ReferenceID := referenceID }
  let r1 := r0.SetOriginTime packet.XmitTimeSec packet.XmitTimeFrac
  let r2 := r1.SetReceiveTime receiveTime
  let r3 := r2.SetReferenceTime (currentTime.addSecs (-1))
  let r4 := r3.SetTransmitTime transmitNow
  { r4 with RootDelay := rootDelay, RootDisp := rootDisp }

structure TimeSpoofingConfig where
  Enabled : Bool
  OffsetSecs : Int
  CustomTime : String
deriving Repr, DecidableEq

/-- config.TimeDriftConfig.  The float64 fields DriftPerSec and MaxDrift enter
only the float drift computation, which is abstracted by AttackEnv.driftAmount. -/
structure TimeDriftConfig where
  Enabled : Bool
  Direction : String
deriving Repr, DecidableEq

structure KissOfDeathConfig where
  Enabled : Bool
  Code : List Nat
  Interval : Int
deriving Repr, DecidableEq

structure StratumAttackConfig where
  Enabled : Bool
  FakeStratum : Int
deriving Repr, DecidableEq

structure LeapSecondConfig where
  Enabled : Bool
  LeapIndicator : Int
deriving Repr, DecidableEq

structure RolloverConfig where
  Enabled : Bool
  TargetYear : Int
  Mode : String
deriving Repr, DecidableEq

structure ClockStepConfig where
  Enabled : Bool
  StepSecs : Int
  Interval : Int
deriving Repr, DecidableEq

/-- Modelled from the spec: the fuzzing per-attack config (enabled flag and a
mode string); the config struct for fuzzing is referenced by the attack engine
but its declaration is not among the provided source files. -/
structure FuzzingConfig where
  Enabled : Bool
  Mode : String
deriving Repr, DecidableEq

structure SecurityConfig where
  Enabled : Bool
  ActiveAttack : String
  TimeSpoofing : TimeSpoofingConfig
  TimeDrift : TimeDriftConfig
  KissOfDeath : KissOfDeathConfig
  StratumAttack : StratumAttackConfig
  LeapSecond : LeapSecondConfig
  Rollover : RolloverConfig
  ClockStep : ClockStepConfig
  Fuzzing : FuzzingConfig
deriving Repr, DecidableEq

structure DriftState where
  StartTime : GoTime
  CurrentDrift : Int
  LastUpdate : GoTime
deriving Repr, DecidableEq

/-- The mutable state of attacks.AttackEngine: drift state and the per-client
request counters (the Go map, as a total function defaulting to 0). -/
structure EngineState where
  driftState : DriftState
  requestCount : String → Nat

/-- The effectful inputs consumed inside ProcessPacket's attack branches, made
explicit: the time.Parse result for a custom spoof time, time.Now, the capped
float64 drift magnitude in nanoseconds, and the rand.Intn draws of applyFuzzing. -/
structure AttackEnv where
  parsedCustomTime : Option GoTime
  now : GoTime
  driftAmount : Int
  fuzzKind : Nat
  fuzzVersion1 : Nat
  fuzzVersion2 : Nat
  fuzzMode : Nat
  fuzzStratum : Nat

def bytesToString (l : List Nat) : String := String.mk (l.map (fun b => Char.ofNat b))

def denyCode : List Nat := [68, 69, 78, 89]

/-- attacks.applyTimeSpoofing. -/
def applyTimeSpoofing (cfg : TimeSpoofingConfig) (p : NTPPacket) (realTime : GoTime)
    (env : AttackEnv) : NTPPacket × String :=
  if !cfg.Enabled then (p, "")
  else
    let fakeTime :=
      if cfg.CustomTime ≠ "" then
        match env.parsedCustomTime with
        | some t => t
        | none => realTime.addSecs cfg.OffsetSecs
      else realTime.addSecs cfg.OffsetSecs
    let p1 := ((p.SetReceiveTime fakeTime).SetTransmitTime fakeTime).SetReferenceTime
      (fakeTime.addSecs (-1))
    (p1, "Time Spoofing")

/-- attacks.applyTimeDrift: the elapsed-time float computation is abstracted by
env.driftAmount; direction negation and the state update are kept. -/
def applyTimeDrift (cfg : TimeDriftConfig) (st : EngineState) (p : NTPPacket)
    (realTime : GoTime) (env : AttackEnv) : NTPPacket × String × EngineState :=
  if !cfg.Enabled then (p, "", st)
  else
    let driftDuration : Int := if cfg.Direction = "backward" then -env.driftAmount
      else env.driftAmount
    let st1 := { st with driftState :=
      { st.driftState with CurrentDrift := driftDuration, LastUpdate := env.now } }
    let fakeTime := realTime.addNs driftDuration
    let p1 := ((p.SetReceiveTime fakeTime).SetTransmitTime fakeTime).SetReferenceTime
      (fakeTime.addSecs (-1))
    (p1, "Time Drift", st1)

/-- attacks.applyKissOfDeath: interval gate, then Stratum 0 + LI alarm + kiss
code, with "DENY" as the fallback when the configured code is rejected. -/
def applyKissOfDeath (cfg : KissOfDeathConfig) (p : NTPPacket) (_clientAddr : String)
    (requestCount : Nat) : NTPPacket × String :=
  if !cfg.Enabled then (p, "")
  else if cfg.Interval > 0 ∧ requestCount % cfg.Interval.toNat ≠ 0 then (p, "")
  else
    let p1 := { p with Stratum := 0, LeapIndicator := 3 }
    let attempt := p1.SetKissOfDeathCode cfg.Code
    let p2 := match attempt.2 with
      | none => attempt.1
      | some _ => (attempt.1.SetKissOfDeathCode denyCode).1
    (p2, "Kiss-of-Death (" ++ bytesToString cfg.Code ++ ")")

/-- attacks.applyStratumLie: Stratum becomes uint8(FakeStratum); a fake GPS
reference id is set when FakeStratum is 1. -/
def applyStratumLie (cfg : StratumAttackConfig) (p : NTPPacket) : NTPPacket × String :=
  if !cfg.Enabled then (p, "")
  else
    let p1 := { p with Stratum := uint8ofInt cfg.FakeStratum }
    let p2 := if cfg.FakeStratum = 1 then { p1 with ReferenceID := be32 71 80 83 0 } else p1
    (p2, "Stratum Lie (" ++ toString cfg.FakeStratum ++ ")")

def leapDesc (i : Int) : String :=
  if i = 1 then "+1 second" else if i = 2 then "-1 second"
  else if i = 3 then "alarm/unsynchronized" else ""

/-- attacks.applyLeapSecond. -/
def applyLeapSecond (cfg : LeapSecondConfig) (p : NTPPacket) : NTPPacket × String :=
  if !cfg.Enabled then (p, "")
  else ({ p with LeapIndicator := uint8ofInt cfg.LeapIndicator },
        "Leap Second (" ++ leapDesc cfg.LeapIndicator ++ ")")

/-- Unix seconds of 2038-01-19T03:14:07Z (time.Date semantics). -/
def y2k38Unix : Int := 2147483647

/-- Unix seconds of 2036-02-07T06:28:16Z, the NTP era 1 boundary. -/
def ntpEraUnix : Int := 2085978496

/-- Number of proleptic-Gregorian leap years before year y. -/
def leapsBefore (y : Int) : Int := (y - 1) / 4 - (y - 1) / 100 + (y - 1) / 400

/-- Unix seconds of YYYY-01-01T00:00:00Z (time.Date semantics). -/
def yearStartUnix (y : Int) : Int :=
  86400 * (365 * (y - 1970) + (leapsBefore y - leapsBefore 1970))

/-- attacks.applyRollover. -/
def applyRollover (cfg : RolloverConfig) (p : NTPPacket) : NTPPacket × String :=
  if !cfg.Enabled then (p, "")
  else
    let rolloverTime : GoTime :=
      if cfg.Mode = "y2k38" then { sec := y2k38Unix, nsec := 0 }
      else if cfg.Mode = "ntp_era" then { sec := ntpEraUnix, nsec := 0 }
      else if cfg.Mode = "custom" then { sec := yearStartUnix cfg.TargetYear, nsec := 0 }
      else { sec := y2k38Unix, nsec := 0 }
    let description :=
      if cfg.Mode = "y2k38" then "Y2K38 (Unix 32-bit overflow)"
      else if cfg.Mode = "ntp_era" then "NTP Era 1 rollover"
      else if cfg.Mode = "custom" then "Custom year " ++ toString cfg.TargetYear
      else "Y2K38"
    let p1 := ((p.SetReceiveTime rolloverTime).SetTransmitTime rolloverTime).SetReferenceTime
      (rolloverTime.addSecs (-1))
    (p1, "Rollover (" ++ description ++ ")")

/-- attacks.applyClockStep. -/
def applyClockStep (cfg : ClockStepConfig) (p : NTPPacket) (realTime : GoTime)
    (requestCount : Nat) : NTPPacket × String :=
  if !cfg.Enabled then (p, "")
  else if cfg.Interval > 0 ∧ requestCount % cfg.Interval.toNat ≠ 0 then (p, "")
  else
    let steppedTime := realTime.addSecs cfg.StepSecs
    let p1 := ((p.SetReceiveTime steppedTime).SetTransmitTime steppedTime).SetReferenceTime
      (steppedTime.addSecs (-1))
    (p1, "Clock Step (+" ++ toString cfg.StepSecs ++ "s)")

/-- The Go zero time.Time value, 0001-01-01T00:00:00Z. -/
def goZeroTime : GoTime := { sec := -62135596800, nsec := 0 }

/-- attacks.applyFuzzing, with the rand.Intn draws taken from env. -/
def applyFuzzing (cfg : FuzzingConfig) (p : NTPPacket) (env : AttackEnv) : NTPPacket × String :=
  if !cfg.Enabled then (p, "")
  else if env.fuzzKind = 0 then
    let v0 := env.fuzzVersion1
    let v := if v0 = 3 ∨ v0 = 4 then env.fuzzVersion2 else v0
    ({ p with Version := v }, "Fuzz: Version " ++ toString v)
  else if env.fuzzKind = 1 then
    let m := if env.fuzzMode = 4 then 0 else env.fuzzMode
    ({ p with Mode := m }, "Fuzz: Mode " ++ toString m)
  else if env.fuzzKind = 2 then
    let s := if env.fuzzStratum = 0 then 16
      else if env.fuzzStratum > 16 then 0 else env.fuzzStratum
    ({ p with Stratum := s }, "Fuzz: Stratum " ++ toString s)
  else if env.fuzzKind = 3 then ({ p with LeapIndicator := 3 }, "Fuzz: LI Alarm")
  else if env.fuzzKind = 4 then
    (((p.SetReceiveTime goZeroTime).SetTransmitTime goZeroTime).SetReferenceTime goZeroTime,
     "Fuzz: Zero Timestamps")
  else if env.fuzzKind = 5 then
    ({ p with
        RecvTimeSec := 4294967295
        RecvTimeFrac := 4294967295
        XmitTimeSec := 4294967295
        XmitTimeFrac := 4294967295 }, "Fuzz: Max Timestamps")
  else if env.fuzzKind = 6 then
    ({ p with RootDelay := 4294901760, RootDisp := 4294901760 }, "Fuzz: Large Root Delay")
  else if env.fuzzKind = 7 then ({ p with ReferenceID := 1094795585 }, "Fuzz: RefID AAAA")
  else if env.fuzzKind = 8 then
    ({ p with OrigTimeSec := (p.OrigTimeSec + 1) % 4294967296 }, "Fuzz: Origin Mismatch")
  else if env.fuzzKind = 9 then
    ({ p with Poll := -100, Precision := 100 }, "Fuzz: Invalid Poll/Prec")
  else (p, "Generic Fuzzing")

/-- attacks.(*AttackEngine).ProcessPacket: returns unchanged when security mode
is disabled; otherwise increments the per-client counter and dispatches on the
active attack tag.  The engine state is threaded explicitly. -/
def ProcessPacket (cfg : SecurityConfig) (st : EngineState) (p : NTPPacket)
    (clientAddr : String) (realTime : GoTime) (env : AttackEnv) :
    NTPPacket × String × EngineState :=
  if !cfg.Enabled then (p, "", st)
  else
    let newCounts : String → Nat := fun a =>
      if a = clientAddr then st.requestCount a + 1 else st.requestCount a
    let st1 : EngineState := { st with requestCount := newCounts }
    let count := newCounts clientAddr
    if cfg.ActiveAttack = "time_spoofing" then
      let r := applyTimeSpoofing cfg.TimeSpoofing p realTime env
      (r.1, r.2, st1)
    else if cfg.ActiveAttack = "time_drift" then
      applyTimeDrift cfg.TimeDrift st1 p realTime env
    else if cfg.ActiveAttack = "kiss_of_death" then
      let r := applyKissOfDeath cfg.KissOfDeath p clientAddr count
      (r.1, r.2, st1)
    else if cfg.ActiveAttack = "stratum_attack" then
      let r := applyStratumLie cfg.StratumAttack p
      (r.1, r.2, st1)
    else if cfg.ActiveAttack = "leap_second" then
      let r := applyLeapSecond cfg.LeapSecond p
      (r.1, r.2, st1)
    else if cfg.ActiveAttack = "rollover" then
      let r := applyRollover cfg.Rollover p
      (r.1, r.2, st1)
    else if cfg.ActiveAttack = "clock_step" then
      let r := applyClockStep cfg.ClockStep p realTime count
      (r.1, r.2, st1)
    else if cfg.ActiveAttack = "fuzzing" then
      let r := applyFuzzing cfg.Fuzzing p env
      (r.1, r.2, st1)
    else (p, "", st1)
def t0 : GoTime := { sec := 1700000000, nsec := 0 }

def engineState0 : EngineState :=
  { driftState := { StartTime := t0, CurrentDrift := 0, LastUpdate := t0 },
    requestCount := fun _ => 0 }

def env0 : AttackEnv :=
  { parsedCustomTime := none, now := t0, driftAmount := 0, fuzzKind := 0,
    fuzzVersion1 := 0, fuzzVersion2 := 0, fuzzMode := 0, fuzzStratum := 0 }

def disabledSec : SecurityConfig :=
  { Enabled := false
    ActiveAttack := ""
    TimeSpoofing := { Enabled := false, OffsetSecs := 0, CustomTime := "" }
    TimeDrift := { Enabled := false, Direction := "forward" }
    KissOfDeath := { Enabled := false, Code := denyCode, Interval := 0 }
    StratumAttack := { Enabled := false, FakeStratum := 1 }
    LeapSecond := { Enabled := false, LeapIndicator := 3 }
    Rollover := { Enabled := false, TargetYear := 2038, Mode := "y2k38" }
    ClockStep := { Enabled := false, StepSecs := 0, Interval := 0 }
    Fuzzing := { Enabled := false, Mode := "random" } }

def fuzzSec : SecurityConfig :=
  { disabledSec with
      Enabled := true
      ActiveAttack := "fuzzing"
      Fuzzing := { Enabled := true, Mode := "random" } }

def envFuzzStratum17 : AttackEnv := { env0 with fuzzKind := 2, fuzzStratum := 17 }

def kodSec : SecurityConfig :=
  { disabledSec with
      Enabled := true
      ActiveAttack := "kiss_of_death"
      KissOfDeath := { Enabled := true, Code := denyCode, Interval := 0 } }

def reqPkt : NTPPacket :=
  { NewPacket with Mode := 3, Version := 4, XmitTimeSec := 3802515139, XmitTimeFrac := 305419896 }

def unsyncStatus : SyncStatus :=
  { Synchronized := false, ActiveServer := "", Stratum := 0, Offset := 0, RTT := 0,
    LastError := "All upstream servers failed" }

def stratum16Cfg : StratumAttackConfig := { Enabled := true, FakeStratum := 16 }
def y2k38Cfg : RolloverConfig := { Enabled := true, TargetYear := 2038, Mode := "y2k38" }
def testBytes : List Nat :=
  [227, 2, 6, 236, 0, 0, 3, 45, 0, 0, 10, 104, 71, 80, 83, 0,
   226, 161, 178, 195, 18, 52, 86, 120, 0, 0, 0, 0, 0, 0, 0, 0,
   226, 161, 178, 196, 255, 255, 255, 255, 226, 161, 178, 197, 128, 0, 0, 1]
def roundPkt : NTPPacket :=
  { LeapIndicator := 3, Version := 4, Mode := 3, Stratum := 2, Poll := 6, Precision := -20,
    RootDelay := 813, RootDisp := 2664, ReferenceID := 1196446464,
    RefTimeSec := 3802515139, RefTimeFrac := 305419896, OrigTimeSec := 0, OrigTimeFrac := 0,
    RecvTimeSec := 3802515140, RecvTimeFrac := 4294967295, XmitTimeSec := 3802515141,
    XmitTimeFrac := 2147483649 }
def badLIPacket : NTPPacket :=
  { LeapIndicator := 4, Version := 4, Mode := 4, Stratum := 2, Poll := 6, Precision := -20,
    RootDelay := 0, RootDisp := 0, ReferenceID := 0,
    RefTimeSec := 0, RefTimeFrac := 0, OrigTimeSec := 0, OrigTimeFrac := 0,
    RecvTimeSec := 0, RecvTimeFrac := 0, XmitTimeSec := 0, XmitTimeFrac := 0 }

set_option maxRecDepth 4096 in
theorem firstByte_decode_encode : ∀ x < 256,
    ((((x >>> 6) &&& 3) <<< 6) % 256) ||| ((((x >>> 3) &&& 7) <<< 3) % 256) ||| (x &&& 7) = x := by
  decide

theorem byteOfInt8_int8ofByte (b : Nat) (hb : b < 256) : byteOfInt8 (int8ofByte b) = b := by
  unfold byteOfInt8 int8ofByte
  split <;> omega

set_option maxRecDepth 4096 in
theorem firstByte_encode_decode : ∀ li < 4, ∀ vn < 8, ∀ m < 8,
    ((((li <<< 6) % 256) ||| ((vn <<< 3) % 256) ||| m) >>> 6) &&& 3 = li ∧
    ((((li <<< 6) % 256) ||| ((vn <<< 3) % 256) ||| m) >>> 3) &&& 7 = vn ∧
    (((li <<< 6) % 256) ||| ((vn <<< 3) % 256) ||| m) &&& 7 = m := by
  decide

theorem int8ofByte_byteOfInt8 (i : Int) (h1 : -128 ≤ i) (h2 : i < 128) :
    int8ofByte (byteOfInt8 i) = i := by
  unfold byteOfInt8 int8ofByte
  split <;> omega

theorem applyTimeSpoofing_Stratum (c : TimeSpoofingConfig) (p : NTPPacket) (rt : GoTime)
    (e : AttackEnv) : ((applyTimeSpoofing c p rt e).1).Stratum = p.Stratum := by
  unfold applyTimeSpoofing NTPPacket.SetReceiveTime NTPPacket.SetTransmitTime
    NTPPacket.SetReferenceTime
  split <;> rfl

theorem applyTimeDrift_Stratum (c : TimeDriftConfig) (st : EngineState) (p : NTPPacket)
    (rt : GoTime) (e : AttackEnv) : ((applyTimeDrift c st p rt e).1).Stratum = p.Stratum := by
  unfold applyTimeDrift NTPPacket.SetReceiveTime NTPPacket.SetTransmitTime
    NTPPacket.SetReferenceTime
  split <;> rfl

theorem applyLeapSecond_Stratum (c : LeapSecondConfig) (p : NTPPacket) :
    ((applyLeapSecond c p).1).Stratum = p.Stratum := by
  unfold applyLeapSecond
  split <;> rfl

theorem applyRollover_Stratum (c : RolloverConfig) (p : NTPPacket) :
    ((applyRollover c p).1).Stratum = p.Stratum := by
  unfold applyRollover NTPPacket.SetReceiveTime NTPPacket.SetTransmitTime
    NTPPacket.SetReferenceTime
  split <;> rfl

theorem applyClockStep_Stratum (c : ClockStepConfig) (p : NTPPacket) (rt : GoTime)
    (n : Nat) : ((applyClockStep c p rt n).1).Stratum = p.Stratum := by
  unfold applyClockStep NTPPacket.SetReceiveTime NTPPacket.SetTransmitTime
    NTPPacket.SetReferenceTime
  split
  · rfl
  · split <;> rfl

theorem applyTimeDrift_requestCount (c : TimeDriftConfig) (st : EngineState) (p : NTPPacket)
    (rt : GoTime) (e : AttackEnv) :
    ((applyTimeDrift c st p rt e).2.2).requestCount = st.requestCount := by
  unfold applyTimeDrift
  split <;> rfl

theorem GetStratum_ne_zero (s : SyncStatus) (h : 0 ≤ s.Stratum) : GetStratum s ≠ 0 := by
  unfold GetStratum uint8ofInt
  split
  · omega
  · split <;> omega

theorem buildResponse_Stratum (req : NTPPacket) (st : SyncStatus) (rid : Nat)
    (rt ct xt : GoTime) (rd rdp : Nat) :
    (buildResponse req st rid rt ct xt rd rdp).Stratum = GetStratum st := by
  unfold buildResponse NTPPacket.SetOriginTime NTPPacket.SetReceiveTime
    NTPPacket.SetReferenceTime NTPPacket.SetTransmitTime
  rfl

theorem buildResponse_LeapIndicator (req : NTPPacket) (st : SyncStatus) (rid : Nat)
    (rt ct xt : GoTime) (rd rdp : Nat) :
    (buildResponse req st rid rt ct xt rd rdp).LeapIndicator = 0 := by
  unfold buildResponse NTPPacket.SetOriginTime NTPPacket.SetReceiveTime
    NTPPacket.SetReferenceTime NTPPacket.SetTransmitTime NewPacket
  rfl

theorem applyKissOfDeath_spec (c : KissOfDeathConfig) (p : NTPPacket) (a : String) (n : Nat) :
    (applyKissOfDeath c p a n).1.Stratum = p.Stratum ∨
    ((applyKissOfDeath c p a n).1.Stratum = 0 ∧
     (applyKissOfDeath c p a n).1.LeapIndicator = 3 ∧
     (applyKissOfDeath c p a n).1.ReferenceID =
       (if c.Code.length = 4
        then be32 (c.Code.getD 0 0) (c.Code.getD 1 0) (c.Code.getD 2 0) (c.Code.getD 3 0)
        else be32 68 69 78 89)) := by
  unfold applyKissOfDeath
  split
  · left; rfl
  split
  · left; rfl
  right
  unfold NTPPacket.SetKissOfDeathCode
  by_cases hc : c.Code.length = 4
  · have hc' : ¬ c.Code.length ≠ 4 := by omega
    simp only [hc', if_false, hc, if_true]
    exact ⟨rfl, rfl, rfl⟩
  · simp [hc, denyCode]

theorem ProcessPacket_fst_spec (cfg : SecurityConfig) (est : EngineState) (p : NTPPacket)
    (addr : String) (realT : GoTime) (env : AttackEnv)
    (hnf : cfg.ActiveAttack ≠ "fuzzing") (hns : cfg.ActiveAttack ≠ "stratum_attack") :
    (ProcessPacket cfg est p addr realT env).1.Stratum = p.Stratum ∨
    ((ProcessPacket cfg est p addr realT env).1.Stratum = 0 ∧
     (ProcessPacket cfg est p addr realT env).1.LeapIndicator = 3 ∧
     (ProcessPacket cfg est p addr realT env).1.ReferenceID =
       (if cfg.KissOfDeath.Code.length = 4
        then be32 (cfg.KissOfDeath.Code.getD 0 0) (cfg.KissOfDeath.Code.getD 1 0)
          (cfg.KissOfDeath.Code.getD 2 0) (cfg.KissOfDeath.Code.getD 3 0)
        else be32 68 69 78 89)) := by
  simp only [ProcessPacket]
  simp only [eq_self_iff_true, if_true]
  simp only [hnf, hns, if_false]
  split
  · left; rfl
  split
  · left; exact applyTimeSpoofing_Stratum _ _ _ _
  split
  · left; exact applyTimeDrift_Stratum _ _ _ _ _
  split
  · exact applyKissOfDeath_spec _ _ _ _
  split
  · left; exact applyLeapSecond_Stratum _ _
  split
  · left; exact applyRollover_Stratum _ _
  split
  · left; exact applyClockStep_Stratum _ _ _ _
  left; rfl

/-- C1: for every valid client request (Mode=3, VN in 3..4), the response built
by processRequest has Mode=server(4), echoes the request Version, and copies the
request Transmit timestamp words verbatim into the Origin timestamp. -/
theorem C1_valid_request_response_echo (req : NTPPacket) (st : SyncStatus) (rid : Nat) (rt ct xt : GoTime)
    (rd rdp : Nat) (hvalid : req.IsValidClientRequest = true) :
    (buildResponse req st rid rt ct xt rd rdp).Mode = 4 ∧
    (buildResponse req st rid rt ct xt rd rdp).Version = req.Version ∧
    (buildResponse req st rid rt ct xt rd rdp).OrigTimeSec = req.XmitTimeSec ∧
    (buildResponse req st rid rt ct xt rd rdp).OrigTimeFrac = req.XmitTimeFrac := by
  unfold buildResponse NTPPacket.SetOriginTime NTPPacket.SetReceiveTime
    NTPPacket.SetReferenceTime NTPPacket.SetTransmitTime
  simp

theorem C1_witness :
    (buildResponse reqPkt unsyncStatus 0 t0 t0 t0 0 655).Mode = 4 ∧
    (buildResponse reqPkt unsyncStatus 0 t0 t0 t0 0 655).Version = reqPkt.Version ∧
    (buildResponse reqPkt unsyncStatus 0 t0 t0 t0 0 655).OrigTimeSec = reqPkt.XmitTimeSec ∧
    (buildResponse reqPkt unsyncStatus 0 t0 t0 t0 0 655).OrigTimeFrac = reqPkt.XmitTimeFrac :=
  C1_valid_request_response_echo reqPkt unsyncStatus 0 t0 t0 t0 0 655 (by decide)

/-- C2: serializing the packet parsed from any 48-byte sequence reproduces the
bytes exactly: Bytes(ParsePacket(b)) = b. -/
theorem C2_bytes_of_parse_roundtrip (data : List Nat) (hlen : data.length = 48) (hmem : ∀ x ∈ data, x < 256) :
    (ParsePacket data).map NTPPacket.Bytes = some data := by
  obtain _ | ⟨b0, data⟩ := data
  · simp at hlen
  obtain _ | ⟨b1, data⟩ := data
  · simp at hlen
  obtain _ | ⟨b2, data⟩ := data
  · simp at hlen
  obtain _ | ⟨b3, data⟩ := data
  · simp at hlen
  obtain _ | ⟨b4, data⟩ := data
  · simp at hlen
  obtain _ | ⟨b5, data⟩ := data
  · simp at hlen
  obtain _ | ⟨b6, data⟩ := data
  · simp at hlen
  obtain _ | ⟨b7, data⟩ := data
  · simp at hlen
  obtain _ | ⟨b8, data⟩ := data
  · simp at hlen
  obtain _ | ⟨b9, data⟩ := data
  · simp at hlen
  obtain _ | ⟨b10, data⟩ := data
  · simp at hlen
  obtain _ | ⟨b11, data⟩ := data
  · simp at hlen
  obtain _ | ⟨b12, data⟩ := data
  · simp at hlen
  obtain _ | ⟨b13, data⟩ := data
  · simp at hlen
  obtain _ | ⟨b14, data⟩ := data
  · simp at hlen
  obtain _ | ⟨b15, data⟩ := data
  · simp at hlen
  obtain _ | ⟨b16, data⟩ := data
  · simp at hlen
  obtain _ | ⟨b17, data⟩ := data
  · simp at hlen
  obtain _ | ⟨b18, data⟩ := data
  · simp at hlen
  obtain _ | ⟨b19, data⟩ := data
  · simp at hlen
  obtain _ | ⟨b20, data⟩ := data
  · simp at hlen
  obtain _ | ⟨b21, data⟩ := data
  · simp at hlen
  obtain _ | ⟨b22, data⟩ := data
  · simp at hlen
  obtain _ | ⟨b23, data⟩ := data
  · simp at hlen
  obtain _ | ⟨b24, data⟩ := data
  · simp at hlen
  obtain _ | ⟨b25, data⟩ := data
  · simp at hlen
  obtain _ | ⟨b26, data⟩ := data
  · simp at hlen
  obtain _ | ⟨b27, data⟩ := data
  · simp at hlen
  obtain _ | ⟨b28, data⟩ := data
  · simp at hlen
  obtain _ | ⟨b29, data⟩ := data
  · simp at hlen
  obtain _ | ⟨b30, data⟩ := data
  · simp at hlen
  obtain _ | ⟨b31, data⟩ := data
  · simp at hlen
  obtain _ | ⟨b32, data⟩ := data
  · simp at hlen
  obtain _ | ⟨b33, data⟩ := data
  · simp at hlen
  obtain _ | ⟨b34, data⟩ := data
  · simp at hlen
  obtain _ | ⟨b35, data⟩ := data
  · simp at hlen
  obtain _ | ⟨b36, data⟩ := data
  · simp at hlen
  obtain _ | ⟨b37, data⟩ := data
  · simp at hlen
  obtain _ | ⟨b38, data⟩ := data
  · simp at hlen
  obtain _ | ⟨b39, data⟩ := data
  · simp at hlen
  obtain _ | ⟨b40, data⟩ := data
  · simp at hlen
  obtain _ | ⟨b41, data⟩ := data
  · simp at hlen
  obtain _ | ⟨b42, data⟩ := data
  · simp at hlen
  obtain _ | ⟨b43, data⟩ := data
  · simp at hlen
  obtain _ | ⟨b44, data⟩ := data
  · simp at hlen
  obtain _ | ⟨b45, data⟩ := data
  · simp at hlen
  obtain _ | ⟨b46, data⟩ := data
  · simp at hlen
  obtain _ | ⟨b47, data⟩ := data
  · simp at hlen
  have hnil : data = [] := by
    cases data with
    | nil => rfl
    | cons a l => simp at hlen
  subst hnil
  have h0 : b0 < 256 := hmem b0 (by simp)
  have h1 : b1 < 256 := hmem b1 (by simp)
  have h2 : b2 < 256 := hmem b2 (by simp)
  have h3 : b3 < 256 := hmem b3 (by simp)
  have h4 : b4 < 256 := hmem b4 (by simp)
  have h5 : b5 < 256 := hmem b5 (by simp)
  have h6 : b6 < 256 := hmem b6 (by simp)
  have h7 : b7 < 256 := hmem b7 (by simp)
  have h8 : b8 < 256 := hmem b8 (by simp)
  have h9 : b9 < 256 := hmem b9 (by simp)
  have h10 : b10 < 256 := hmem b10 (by simp)
  have h11 : b11 < 256 := hmem b11 (by simp)
  have h12 : b12 < 256 := hmem b12 (by simp)
  have h13 : b13 < 256 := hmem b13 (by simp)
  have h14 : b14 < 256 := hmem b14 (by simp)
  have h15 : b15 < 256 := hmem b15 (by simp)
  have h16 : b16 < 256 := hmem b16 (by simp)
  have h17 : b17 < 256 := hmem b17 (by simp)
  have h18 : b18 < 256 := hmem b18 (by simp)
  have h19 : b19 < 256 := hmem b19 (by simp)
  have h20 : b20 < 256 := hmem b20 (by simp)
  have h21 : b21 < 256 := hmem b21 (by simp)
  have h22 : b22 < 256 := hmem b22 (by simp)
  have h23 : b23 < 256 := hmem b23 (by simp)
  have h24 : b24 < 256 := hmem b24 (by simp)
  have h25 : b25 < 256 := hmem b25 (by simp)
  have h26 : b26 < 256 := hmem b26 (by simp)
  have h27 : b27 < 256 := hmem b27 (by simp)
  have h28 : b28 < 256 := hmem b28 (by simp)
  have h29 : b29 < 256 := hmem b29 (by simp)
  have h30 : b30 < 256 := hmem b30 (by simp)
  have h31 : b31 < 256 := hmem b31 (by simp)
  have h32 : b32 < 256 := hmem b32 (by simp)
  have h33 : b33 < 256 := hmem b33 (by simp)
  have h34 : b34 < 256 := hmem b34 (by simp)
  have h35 : b35 < 256 := hmem b35 (by simp)
  have h36 : b36 < 256 := hmem b36 (by simp)
  have h37 : b37 < 256 := hmem b37 (by simp)
  have h38 : b38 < 256 := hmem b38 (by simp)
  have h39 : b39 < 256 := hmem b39 (by simp)
  have h40 : b40 < 256 := hmem b40 (by simp)
  have h41 : b41 < 256 := hmem b41 (by simp)
  have h42 : b42 < 256 := hmem b42 (by simp)
  have h43 : b43 < 256 := hmem b43 (by simp)
  have h44 : b44 < 256 := hmem b44 (by simp)
  have h45 : b45 < 256 := hmem b45 (by simp)
  have h46 : b46 < 256 := hmem b46 (by simp)
  have h47 : b47 < 256 := hmem b47 (by simp)

  simp only [ParsePacket, NTPPacket.Bytes, put32, be32, List.getD_eq_getElem?_getD,
    List.getElem?_cons_zero, List.getElem?_cons_succ, Option.getD_some, List.length_cons,
    List.length_nil, List.cons_append, List.nil_append]
  norm_num [List.cons.injEq]
  unfold NTPPacket.Bytes
  simp only [put32, be32, List.cons_append, List.nil_append, List.cons.injEq, and_true, true_and]
  and_intros <;>
    first
      | exact firstByte_decode_encode b0 h0
      | exact byteOfInt8_int8ofByte b2 h2
      | exact byteOfInt8_int8ofByte b3 h3
      | rfl
      | omega

theorem C2_witness :
    (ParsePacket testBytes).map NTPPacket.Bytes = some testBytes :=
  C2_bytes_of_parse_roundtrip testBytes (by decide) (by decide)

set_option maxRecDepth 4096 in
/-- C3 counterexample: a packet with LeapIndicator = 4 (a representable uint8
value exceeding the 2-bit wire field) does not survive Bytes followed by
ParsePacket, refuting the claim quantified over every field assignment. -/
theorem C3_counterexample : ParsePacket badLIPacket.Bytes ≠ some badLIPacket := by decide

/-- C3 (amended): parsing the serialization returns the packet unchanged for
every packet whose LI, VN and Mode fit their wire bit widths (2/3/3 bits) and
whose fields satisfy the Go type ranges.  The unamended claim, quantified over
every assignment of the 14 fields, is refuted by C3_counterexample. -/
theorem C3_parse_of_bytes_roundtrip_inrange (p : NTPPacket) (hwf : p.Wf)
    (hli : p.LeapIndicator < 4) (hvn : p.Version < 8) (hm : p.Mode < 8) :
    ParsePacket p.Bytes = some p := by
  obtain ⟨LI, VN, M, S, Po, Pr, rd, rdp, rid, rts, rtf, ots, otf, rcs, rcf, xts, xtf⟩ := p
  obtain ⟨w1, w2, w3, w4, w5, w6, w7, w8, w9, w10, w11, w12, w13, w14, w15, w16, w17, w18, w19⟩ := hwf
  simp only [NTPPacket.Bytes, put32] at *
  simp only [ParsePacket, List.length_cons, List.length_nil, List.cons_append, List.nil_append,
    List.getD_eq_getElem?_getD, List.getElem?_cons_zero, List.getElem?_cons_succ,
    Option.getD_some]
  norm_num [NTPPacket.mk.injEq]
  and_intros <;>
    first
      | exact (firstByte_encode_decode LI hli VN hvn M hm).1
      | exact (firstByte_encode_decode LI hli VN hvn M hm).2.1
      | exact (firstByte_encode_decode LI hli VN hvn M hm).2.2
      | exact int8ofByte_byteOfInt8 Po w5 w6
      | exact int8ofByte_byteOfInt8 Pr w7 w8
      | rfl
      | (unfold be32; omega)

theorem C3_witness : ParsePacket roundPkt.Bytes = some roundPkt :=
  C3_parse_of_bytes_roundtrip_inrange roundPkt (by unfold NTPPacket.Wf; decide) (by decide) (by decide) (by decide)

/-- C5 counterexample: with an unsynchronized upstream and no attack, the
response has Stratum 16 but LeapIndicator 0, not the claimed alarm value 3. -/
theorem C5_counterexample :
    ((ProcessPacket disabledSec engineState0
        (buildResponse reqPkt unsyncStatus 0 t0 t0 t0 0 655) "10.0.0.1:62000" t0 env0).1).Stratum
      = 16 ∧
    ¬ ((ProcessPacket disabledSec engineState0
        (buildResponse reqPkt unsyncStatus 0 t0 t0 t0 0 655) "10.0.0.1:62000" t0
        env0).1).LeapIndicator = 3 := by
  decide


/-- C5 (amended): when the upstream snapshot is unsynchronized and the attack
engine is disabled, the outgoing response has Stratum = 16 and LeapIndicator = 0.
The unamended claim (LeapIndicator = 3) is refuted by C5_counterexample:
processRequest never sets the leap indicator, which stays at NewPacket value 0. -/
theorem C5_unsync_stratum16_li0 (req : NTPPacket) (st : SyncStatus) (rid : Nat) (rt ct xt : GoTime)
    (rd rdp : Nat) (cfg : SecurityConfig) (est : EngineState) (addr : String)
    (realT : GoTime) (env : AttackEnv)
    (hsync : st.Synchronized = false) (hdis : cfg.Enabled = false) :
    ((ProcessPacket cfg est (buildResponse req st rid rt ct xt rd rdp) addr realT env).1).Stratum
      = 16 ∧
    ((ProcessPacket cfg est (buildResponse req st rid rt ct xt rd rdp) addr realT
      env).1).LeapIndicator = 0 := by
  unfold ProcessPacket
  simp only [hdis, Bool.not_false, if_true]
  refine ⟨?_, buildResponse_LeapIndicator req st rid rt ct xt rd rdp⟩
  rw [buildResponse_Stratum]
  unfold GetStratum
  simp [hsync]

theorem C5_witness :
    ((ProcessPacket disabledSec engineState0
        (buildResponse reqPkt unsyncStatus 0 t0 t0 t0 0 655) "10.0.0.1:62000" t0 env0).1).Stratum
      = 16 ∧
    ((ProcessPacket disabledSec engineState0
        (buildResponse reqPkt unsyncStatus 0 t0 t0 t0 0 655) "10.0.0.1:62000" t0
        env0).1).LeapIndicator = 0 :=
  C5_unsync_stratum16_li0 reqPkt unsyncStatus 0 t0 t0 t0 0 655 disabledSec engineState0 "10.0.0.1:62000" t0 env0
    rfl rfl

/-- C6 counterexample: the fuzzing stratum mutation (draw 2 with stratum roll
17 > 16) emits a Stratum-0 packet whose LeapIndicator is 0, not the alarm 3
required by the claimed invariant (and whose ReferenceID carries no kiss code). -/
theorem C6_counterexample :
    ((ProcessPacket fuzzSec engineState0
        (buildResponse reqPkt unsyncStatus 0 t0 t0 t0 0 655) "10.0.0.1:62000" t0
        envFuzzStratum17).1).Stratum = 0 ∧
    ¬ ((ProcessPacket fuzzSec engineState0
        (buildResponse reqPkt unsyncStatus 0 t0 t0 t0 0 655) "10.0.0.1:62000" t0
        envFuzzStratum17).1).LeapIndicator = 3 := by
  decide


/-- C6 (amended): outside the fuzzing and stratum_attack paths (and with the
upstream snapshot stratum nonnegative, as the tracker maintains), an outgoing
packet with Stratum = 0 has LeapIndicator = 3 and ReferenceID equal to the
configured 4-byte kiss code, or to "DENY" when the configured code is not
4 bytes.  The unamended all-paths claim is refuted by C6_counterexample. -/
theorem C6_stratum0_kod_invariant_nonfuzzing (req : NTPPacket) (st : SyncStatus) (rid : Nat) (rt ct xt : GoTime)
    (rd rdp : Nat) (cfg : SecurityConfig) (est : EngineState) (addr : String)
    (realT : GoTime) (env : AttackEnv) (out : NTPPacket)
    (hstr : 0 ≤ st.Stratum)
    (hnf : cfg.ActiveAttack ≠ "fuzzing") (hns : cfg.ActiveAttack ≠ "stratum_attack")
    (hout : out =
      (ProcessPacket cfg est (buildResponse req st rid rt ct xt rd rdp) addr realT env).1) :
    out.Stratum = 0 →
      out.LeapIndicator = 3 ∧
      out.ReferenceID = (if cfg.KissOfDeath.Code.length = 4
        then be32 (cfg.KissOfDeath.Code.getD 0 0) (cfg.KissOfDeath.Code.getD 1 0)
          (cfg.KissOfDeath.Code.getD 2 0) (cfg.KissOfDeath.Code.getD 3 0)
        else be32 68 69 78 89) := by
  subst hout
  intro h0
  rcases ProcessPacket_fst_spec cfg est (buildResponse req st rid rt ct xt rd rdp) addr realT
      env hnf hns with h | h
  · exfalso
    apply GetStratum_ne_zero st hstr
    rw [← buildResponse_Stratum req st rid rt ct xt rd rdp, ← h]
    exact h0
  · exact ⟨h.2.1, h.2.2⟩

theorem C6_witness :
    ((ProcessPacket kodSec engineState0
        (buildResponse reqPkt unsyncStatus 0 t0 t0 t0 0 655) "10.0.0.1:62000" t0
          env0).1).LeapIndicator = 3 ∧
    ((ProcessPacket kodSec engineState0
        (buildResponse reqPkt unsyncStatus 0 t0 t0 t0 0 655) "10.0.0.1:62000" t0
          env0).1).ReferenceID = (if kodSec.KissOfDeath.Code.length = 4
        then be32 (kodSec.KissOfDeath.Code.getD 0 0) (kodSec.KissOfDeath.Code.getD 1 0)
          (kodSec.KissOfDeath.Code.getD 2 0) (kodSec.KissOfDeath.Code.getD 3 0)
        else be32 68 69 78 89) :=
  C6_stratum0_kod_invariant_nonfuzzing reqPkt unsyncStatus 0 t0 t0 t0 0 655 kodSec engineState0
    "10.0.0.1:62000" t0 env0 _ (by decide) (by decide) (by decide) rfl (by decide)

/-- C7 counterexample: with fake_stratum = 16 the mutated response has
Stratum 16, not the claimed clamped value 15. -/
theorem C7_counterexample :
    ((applyStratumLie stratum16Cfg NewPacket).1).Stratum = 16 ∧
    ¬ ((applyStratumLie stratum16Cfg NewPacket).1).Stratum = 15 := by
  decide


/-- C7 (amended): an enabled stratum attack sets Stratum to fake_stratum reduced
by Go uint8 conversion (mod 256), with no clamping to 0..15; when fake_stratum
is 1 the ReferenceID becomes the bytes of GPS followed by a NUL byte.  The
claimed clamping is refuted by C7_counterexample. -/
theorem C7_stratum_lie_truncates (cfg : StratumAttackConfig) (p : NTPPacket) (h : cfg.Enabled = true) :
    ((applyStratumLie cfg p).1).Stratum = uint8ofInt cfg.FakeStratum ∧
    (cfg.FakeStratum = 1 → ((applyStratumLie cfg p).1).ReferenceID = be32 71 80 83 0) := by
  unfold applyStratumLie
  simp only [h, Bool.not_true, Bool.false_eq_true, if_false]
  split_ifs with hf <;> simp [hf]

theorem C7_witness :
    ((applyStratumLie { Enabled := true, FakeStratum := 1 } NewPacket).1).Stratum
      = uint8ofInt ({ Enabled := true, FakeStratum := 1 } : StratumAttackConfig).FakeStratum ∧
    (({ Enabled := true, FakeStratum := 1 } : StratumAttackConfig).FakeStratum = 1 →
      ((applyStratumLie { Enabled := true, FakeStratum := 1 } NewPacket).1).ReferenceID
        = be32 71 80 83 0) :=
  C7_stratum_lie_truncates { Enabled := true, FakeStratum := 1 } NewPacket rfl

/-- C8 counterexample: the y2k38 rollover response Transmit timestamp does not
decode back to 2038-01-19T03:14:07Z (unix 2147483647). -/
theorem C8_counterexample :
    ¬ ((applyRollover y2k38Cfg NewPacket).1).GetTransmitTime
      = ({ sec := 2147483647, nsec := 0 } : GoTime) := by
  decide

/-- C8 (amended): rollover in y2k38 mode stamps Receive/Transmit with
TimeToNTPTimestamp(2038-01-19T03:14:07Z), whose 32-bit seconds word wraps to
61505151, and Reference with that instant minus one second; decoding the
Transmit timestamp with NTPTimestampToTime therefore yields the target minus
2^32 seconds (unix -2147483649, i.e. 1901-12-13T20:45:51Z), not the target
itself.  The unamended claim is refuted by C8_counterexample. -/
theorem C8_rollover_y2k38_wraps (cfg : RolloverConfig) (p : NTPPacket) (out : NTPPacket)
    (hE : cfg.Enabled = true) (hm : cfg.Mode = "y2k38")
    (hout : out = (applyRollover cfg p).1) :
    out.XmitTimeSec = 61505151 ∧ out.XmitTimeFrac = 0 ∧
    out.RecvTimeSec = 61505151 ∧ out.RecvTimeFrac = 0 ∧
    out.RefTimeSec = 61505150 ∧ out.RefTimeFrac = 0 ∧
    out.GetTransmitTime = ({ sec := -2147483649, nsec := 0 } : GoTime) := by
  subst hout
  unfold applyRollover
  simp only [hE, hm, Bool.not_true, Bool.false_eq_true, if_false, if_true]
  unfold NTPPacket.SetReceiveTime NTPPacket.SetTransmitTime NTPPacket.SetReferenceTime
    NTPPacket.GetTransmitTime TimeToNTPTimestamp NTPTimestampToTime GoTime.addSecs
    uint32ofInt ntpFracOfNanos nanosOfNtpFrac y2k38Unix NTPEpochOffset
  norm_num
  omega

theorem C8_witness :
    ((applyRollover y2k38Cfg NewPacket).1).XmitTimeSec = 61505151 ∧
    ((applyRollover y2k38Cfg NewPacket).1).XmitTimeFrac = 0 ∧
    ((applyRollover y2k38Cfg NewPacket).1).RecvTimeSec = 61505151 ∧
    ((applyRollover y2k38Cfg NewPacket).1).RecvTimeFrac = 0 ∧
    ((applyRollover y2k38Cfg NewPacket).1).RefTimeSec = 61505150 ∧
    ((applyRollover y2k38Cfg NewPacket).1).RefTimeFrac = 0 ∧
    ((applyRollover y2k38Cfg NewPacket).1).GetTransmitTime
      = ({ sec := -2147483649, nsec := 0 } : GoTime) :=
  C8_rollover_y2k38_wraps y2k38Cfg NewPacket ((applyRollover y2k38Cfg NewPacket).1) rfl rfl rfl

/-- C9 counterexample: with security mode disabled, a ProcessPacket call leaves
the per-client counter at 0 instead of incrementing it to 1. -/
theorem C9_counterexample :
    ¬ ((ProcessPacket disabledSec engineState0 reqPkt "10.0.0.1:62000" t0 env0).2.2).requestCount
        "10.0.0.1:62000"
      = engineState0.requestCount "10.0.0.1:62000" + 1 := by
  decide


/-- C9 (amended): ProcessPacket increments the per-client request counter by
exactly one when security mode is enabled (whatever the active attack), and
returns the packet unchanged with an empty tag and untouched state when
disabled.  The unamended every-call claim is refuted by C9_counterexample. -/
theorem C9_request_count_increment_iff_enabled (cfg : SecurityConfig) (est : EngineState) (p : NTPPacket) (addr : String)
    (realT : GoTime) (env : AttackEnv) :
    (cfg.Enabled = true →
      ((ProcessPacket cfg est p addr realT env).2.2).requestCount addr
        = est.requestCount addr + 1) ∧
    (cfg.Enabled = false → ProcessPacket cfg est p addr realT env = (p, "", est)) := by
  constructor
  · intro hE
    unfold ProcessPacket
    simp only [hE, Bool.not_true, Bool.false_eq_true, if_false]
    split_ifs <;> simp [applyTimeDrift_requestCount]
  · intro hE
    unfold ProcessPacket
    simp [hE]

theorem C9_witness :
    ((ProcessPacket fuzzSec engineState0 reqPkt "10.0.0.1:62000" t0 env0).2.2).requestCount
        "10.0.0.1:62000"
      = engineState0.requestCount "10.0.0.1:62000" + 1 :=
  (C9_request_count_increment_iff_enabled fuzzSec engineState0 reqPkt "10.0.0.1:62000" t0 env0).1 rfl

/-- C10: SetKissOfDeathCode with a code whose byte length is not 4 returns the
error and the packet with every field unchanged; Stratum is forced to 0 only on
the success path. -/
theorem C10_setkod_error_leaves_packet (p : NTPPacket) (code : List Nat) :
    (code.length ≠ 4 →
      p.SetKissOfDeathCode code = (p, some "kiss code must be exactly 4 characters")) ∧
    (code.length = 4 →
      (p.SetKissOfDeathCode code).2 = none ∧ ((p.SetKissOfDeathCode code).1).Stratum = 0) := by
  unfold NTPPacket.SetKissOfDeathCode
  constructor
  · intro h
    simp [h]
  · intro h
    simp [h]

theorem C10_witness :
    NewPacket.SetKissOfDeathCode [82, 65]
      = (NewPacket, some "kiss code must be exactly 4 characters") :=
  (C10_setkod_error_leaves_packet NewPacket [82, 65]).1 (by decide)
